import Mathlib

/-!
Verification of the scrolly-story-animator scroll tracker and
choreography interpolation engine.

The development shallowly embeds the JavaScript sources
`src/scrollListener.js` and `map/animateOnScroll.js`:

* JS numbers used in finite arithmetic are modelled as `ℚ`; the single
  place where a division can produce a non-finite value
  (`getPanelProgress`) is modelled with an explicit `JSNum` type carrying
  `nan` / `inf` / `neginf` alongside finite rationals, with `Math.min` /
  `Math.max` given their JavaScript (NaN-propagating) semantics.
* Dates are modelled by their epoch-millisecond values.
* `parseInt(s, 10)` is modelled by `jsParseInt` (optional whitespace,
  optional sign, longest decimal-digit prefix, `none` for NaN).
* DOM-driven callbacks (the docking mutation observer) are modelled as a
  step function on an explicit state, folded over a list of callback
  events.
* Thrown-and-caught JS exceptions are modelled with `Except Unit`.
-/

namespace Scrolly

/-! ## JavaScript number model (only where non-finite values can arise) -/

/-- A JavaScript number: a finite rational, `NaN`, `Infinity` or
`-Infinity`.  Finite arithmetic elsewhere in the embedding stays in `ℚ`. -/
inductive JSNum where
  | num (q : ℚ)
  | nan
  | inf
  | neginf
deriving DecidableEq

/-- JS division of finite operands: division by zero yields `Infinity`,
`-Infinity` or `NaN` depending on the sign of the numerator. -/
def jsDiv (a b : ℚ) : JSNum :=
  if b = 0 then
    if 0 < a then JSNum.inf else if a < 0 then JSNum.neginf else JSNum.nan
  else JSNum.num (a / b)

/-- `Math.min`: `NaN` propagates; otherwise the usual minimum with the
infinities at the ends of the order. -/
def jsMin (a b : JSNum) : JSNum :=
  match a, b with
  | JSNum.nan, _ => JSNum.nan
  | _, JSNum.nan => JSNum.nan
  | JSNum.neginf, _ => JSNum.neginf
  | _, JSNum.neginf => JSNum.neginf
  | JSNum.inf, x => x
  | x, JSNum.inf => x
  | JSNum.num x, JSNum.num y => JSNum.num (min x y)

/-- `Math.max`: `NaN` propagates; otherwise the usual maximum. -/
def jsMax (a b : JSNum) : JSNum :=
  match a, b with
  | JSNum.nan, _ => JSNum.nan
  | _, JSNum.nan => JSNum.nan
  | JSNum.inf, _ => JSNum.inf
  | _, JSNum.inf => JSNum.inf
  | JSNum.neginf, x => x
  | x, JSNum.neginf => x
  | JSNum.num x, JSNum.num y => JSNum.num (max x y)

/-! ## Panel geometry (`scrollListener.js`, `getPanelHeight`,
`getPanelScrollBounds`, `getPanelProgress`) -/

/-- The layout data of a narrative panel element that `getPanelHeight`
reads: `offsetHeight`, the computed margins and bottom padding, and
whether the panel's class list contains `"first"` / `"last"`. -/
structure Panel where
  offsetHeight : ℚ
  marginTop : ℚ
  marginBottom : ℚ
  paddingBottom : ℚ
  first : Bool
  last : Bool
deriving DecidableEq, Inhabited

/-- `getPanelHeight` (scrollListener.js:32-40): first panel →
`offsetHeight - marginTop`; last panel → `offsetHeight - paddingBottom`;
otherwise `offsetHeight + marginBottom + marginTop`. -/
def getPanelHeight (panel : Panel) : ℚ :=
  if panel.first then panel.offsetHeight - panel.marginTop
  else if panel.last then panel.offsetHeight - panel.paddingBottom
  else panel.offsetHeight + panel.marginBottom + panel.marginTop

/-- `getPanelScrollBounds` (scrollListener.js:45-56): start = dock anchor
plus the heights of all previous panels; end = start + current panel's
height.  The module-global `dockStartScroll` is passed explicitly (callers
guard it against `null`). -/
def getPanelScrollBounds (dockStartScroll : ℚ) (panels : List Panel)
    (currentSlide : ℕ) : ℚ × ℚ :=
  let panelStartScroll :=
    dockStartScroll + (((panels.take currentSlide).map getPanelHeight).sum)
  let panelHeight := getPanelHeight (panels.getD currentSlide default)
  (panelStartScroll, panelStartScroll + panelHeight)

/-- `getPanelProgress` (scrollListener.js:60-68):
`Math.max(0, Math.min(1, (scrollY - start) / (end - start)))`, with the
division given JS semantics (non-finite on a degenerate panel). -/
def getPanelProgress (dockStartScroll : ℚ) (panels : List Panel)
    (currentSlide : ℕ) (scrollY : ℚ) : JSNum :=
  let bounds := getPanelScrollBounds dockStartScroll panels currentSlide
  let progress := jsDiv (scrollY - bounds.1) (bounds.2 - bounds.1)
  jsMax (JSNum.num 0) (jsMin (JSNum.num 1) progress)

/-- The scroll handler (scrollListener.js:160-202) as a function from the
tracker state to the published progress message: `null`/undocked guards
first, then the `currentSlide < panels.length` check, then the payload
`{slide, progress}` (the `toFixed(2)` string formatting is omitted; the
payload carries the computed progress value). -/
def scrollHandlerMessage (isDocked : Bool) (dockStartScroll : Option ℚ)
    (panels : List Panel) (currentSlide : ℕ) (scrollY : ℚ) :
    Option (ℕ × JSNum) :=
  if isDocked = false ∨ dockStartScroll = none then none
  else if currentSlide < panels.length then
    some (currentSlide,
      getPanelProgress (dockStartScroll.getD 0) panels currentSlide scrollY)
  else none

/-! ## Slide-index parsing (`scrollListener.js`, observer and fallback) -/

/-- `parseInt(s, 10)`: skip leading whitespace, optional `+`/`-` sign,
then the longest prefix of decimal digits; `none` models `NaN`. -/
def jsParseInt (s : List Char) : Option ℤ :=
  let trimmed := s.dropWhile Char.isWhitespace
  let signed : ℤ × List Char :=
    match trimmed with
    | '-' :: rest => (-1, rest)
    | '+' :: rest => (1, rest)
    | _ => (1, trimmed)
  let digits := signed.2.takeWhile Char.isDigit
  if digits.isEmpty then none
  else some (signed.1 *
    (digits.foldl (fun acc c => acc * 10 + ((c.toNat - '0'.toNat) : ℤ)) 0))

/-- `String.prototype.split` with the one-character separator `"#"`:
always returns at least one (possibly empty) piece. -/
def splitHash : List Char → List (List Char)
  | [] => [[]]
  | c :: rest =>
    let r := splitHash rest
    if c = '#' then [] :: r
    else
      match r with
      | [] => [[c]]
      | h :: t => (c :: h) :: t

/-- The mutation-observer path (scrollListener.js:75-83):
`parts = src.split("#")`; parse `parts.length > 1 ? parts.pop() : "0"`
as a base-10 integer; `NaN` becomes slide 0. -/
def slideIndexObserver (src : String) : ℤ :=
  let parts := splitHash src.data
  let seg := if parts.length > 1 then parts.getLastD [] else ['0']
  match jsParseInt seg with
  | none => 0
  | some n => n

/-- The inline fallback in the scroll handler (scrollListener.js:177-180),
transcribed from its own site: same split, pop, parse and NaN default. -/
def slideIndexFallback (iframeSrc : String) : ℤ :=
  let parts := splitHash iframeSrc.data
  let seg := if parts.length > 1 then parts.getLastD [] else ['0']
  match jsParseInt seg with
  | none => 0
  | some n => n

/-- Modelled from the spec: "take the segment after the last `#`
(index 0 when there is no `#`), parse it as a base-10 integer, and
default to 0 when the parse yields NaN". -/
def specSlideIndex (src : String) : ℤ :=
  if '#' ∈ src.data then
    match jsParseInt ((splitHash src.data).getLastD []) with
    | none => 0
    | some n => n
  else 0

/-! ## Docking state machine (`scrollListener.js`, `setupDockingObserver`) -/

/-- The tracker state touched by the docking observer: the `isDocked`
flag and the `dockStartScroll` anchor (`none` models `null`). -/
structure DockState where
  isDocked : Bool
  dockStartScroll : Option ℚ
deriving DecidableEq

/-- One mutation-observer callback (scrollListener.js:92-110): reads
whether the container currently has the `"docked"` class, the current
scroll direction and `window.scrollY`, and runs the two transition
blocks in order. -/
def dockingObserverStep (st : DockState) (currentlyDocked : Bool)
    (scrollDirection : String) (scrollY : ℚ) : DockState :=
  let st1 :=
    if currentlyDocked ∧ st.isDocked = false then
      { isDocked := true,
        dockStartScroll :=
          if scrollDirection = "down" then some scrollY
          else st.dockStartScroll }
    else st
  if currentlyDocked = false ∧ st1.isDocked then
    { st1 with isDocked := false }
  else st1

/-- A sequence of docking-observer callbacks, folded in delivery order.
Each event is `(currentlyDocked, scrollDirection, scrollY)`. -/
def runDockingObserver (st : DockState)
    (events : List (Bool × String × ℚ)) : DockState :=
  events.foldl (fun s e => dockingObserverStep s e.1 e.2.1 e.2.2) st

/-! ## Viewpoint / camera interpolation (`map/animateOnScroll.js`) -/

/-- A camera position: optional spatial reference (a wkid) and metric
coordinates. -/
structure CameraPosition where
  spatialReference : Option ℤ
  x : ℚ
  y : ℚ
  z : ℚ
deriving DecidableEq

/-- A 3D camera as carried by a keyframe slide's viewpoint. -/
structure Camera where
  position : CameraPosition
  heading : ℚ
  tilt : ℚ
deriving DecidableEq

/-- A target-geometry extent with optional spatial reference. -/
structure Geometry where
  spatialReference : Option ℤ
  xmin : ℚ
  ymin : ℚ
  xmax : ℚ
  ymax : ℚ
deriving DecidableEq

/-- A keyframe slide's viewpoint: optional rotation and scale, a target
geometry, and an optional 3D camera. -/
structure Viewpoint where
  rotation : Option ℚ
  scale : Option ℚ
  targetGeometry : Geometry
  camera : Option Camera
deriving DecidableEq

/-- A keyframe slide (only the fields the verified handlers read). -/
structure Slide where
  viewpoint : Option Viewpoint
deriving DecidableEq

/-- The ease-in-out curve `t < 0.5 ? 2t² : -1 + (4 - 2t)t`
(animateOnScroll.js:47). -/
def easeInOut (t : ℚ) : ℚ :=
  if t < 1/2 then 2 * t * t else -1 + (4 - 2 * t) * t

/-- The undefined-tolerant lerp (animateOnScroll.js:50):
`(a === undefined || b === undefined) ? (a ?? b) : a + (b - a) * t`. -/
def lerpOpt (a b : Option ℚ) (t : ℚ) : Option ℚ :=
  match a, b with
  | none, _ => b
  | some x, none => some x
  | some x, some y => some (x + (y - x) * t)

/-- The same lerp applied at always-defined operands. -/
def lerpQ (a b t : ℚ) : ℚ := a + (b - a) * t

/-- JS `||` on object-valued operands (an object is truthy exactly when
present). -/
def jsOrElse (a b : Option ℤ) : Option ℤ :=
  match a with
  | none => b
  | some x => some x

/-- The interpolated camera JSON built at animateOnScroll.js:60-69:
eased-lerped position, heading and tilt; the position's spatial reference
is `current || next`. -/
def interpolateCamera (currentCamera nextCamera : Camera) (progress : ℚ) :
    Camera :=
  let u := easeInOut (max 0 (min 1 progress))
  { position :=
      { spatialReference :=
          jsOrElse currentCamera.position.spatialReference
            nextCamera.position.spatialReference,
        x := lerpQ currentCamera.position.x nextCamera.position.x u,
        y := lerpQ currentCamera.position.y nextCamera.position.y u,
        z := lerpQ currentCamera.position.z nextCamera.position.z u },
    heading := lerpQ currentCamera.heading nextCamera.heading u,
    tilt := lerpQ currentCamera.tilt nextCamera.tilt u }

/-- The viewpoint JSON built by the 2D path (animateOnScroll.js:85-96):
lerped rotation and scale (undefined-tolerant), lerped extent
coordinates, spatial reference `current || next`. -/
structure ViewpointJSON where
  rotation : Option ℚ
  scale : Option ℚ
  targetGeometry : Geometry
deriving DecidableEq

/-- The 2D viewpoint interpolation body (animateOnScroll.js:85-96). -/
def interpolateViewpointJSON (currentViewpoint nextViewpoint : Viewpoint)
    (progress : ℚ) : ViewpointJSON :=
  let u := easeInOut (max 0 (min 1 progress))
  { rotation := lerpOpt currentViewpoint.rotation nextViewpoint.rotation u,
    scale := lerpOpt currentViewpoint.scale nextViewpoint.scale u,
    targetGeometry :=
      { spatialReference :=
          jsOrElse currentViewpoint.targetGeometry.spatialReference
            nextViewpoint.targetGeometry.spatialReference,
        xmin := lerpQ currentViewpoint.targetGeometry.xmin
          nextViewpoint.targetGeometry.xmin u,
        ymin := lerpQ currentViewpoint.targetGeometry.ymin
          nextViewpoint.targetGeometry.ymin u,
        xmax := lerpQ currentViewpoint.targetGeometry.xmax
          nextViewpoint.targetGeometry.xmax u,
        ymax := lerpQ currentViewpoint.targetGeometry.ymax
          nextViewpoint.targetGeometry.ymax u } }

/-- The goTo target the handler hands to the map view: an interpolated
camera, a full interpolated viewpoint (mapFit `"scale"`), or the target
geometry plus rotation. -/
inductive GoToTarget where
  | camera (c : Camera)
  | viewpointFull (v : ViewpointJSON)
  | geometryWithRotation (g : Geometry) (r : Option ℚ)
deriving DecidableEq

/-- `slideX?.viewpoint.camera` (animateOnScroll.js:44-45): short-circuits
to `undefined` when the slide itself is `undefined`, but throws a
`TypeError` when the slide is defined and its `viewpoint` is not. -/
def cameraOfSlide (s : Option Slide) : Except Unit (Option Camera) :=
  match s with
  | none => Except.ok none
  | some sl =>
    match sl.viewpoint with
    | none => Except.error ()
    | some vp => Except.ok vp.camera

/-- `interpolateViewpoint` (animateOnScroll.js:39-113) as a function from
its inputs to either a thrown error or the (at most one) goTo target it
issues.  `is3DView` models `typeof mapView.camera !== "undefined"` and
`mapFit` the `animationConfig.mapFit` setting. -/
def interpolateViewpoint (slideCurrent slideNext : Option Slide)
    (progress : ℚ) (is3DView : Bool) (mapFit : String) :
    Except Unit (Option GoToTarget) := do
  let currentViewpoint := slideCurrent.bind (fun s => s.viewpoint)
  let nextViewpoint := slideNext.bind (fun s => s.viewpoint)
  let currentCamera ← cameraOfSlide slideCurrent
  let nextCamera ← cameraOfSlide slideNext
  if is3DView ∧ (currentCamera.isSome ∨ nextCamera.isSome) then
    match currentCamera, nextCamera with
    | some cc, some nc =>
      pure (some (GoToTarget.camera (interpolateCamera cc nc progress)))
    | _, _ => pure none
  else
    match currentViewpoint, nextViewpoint with
    | some cv, some nv =>
      let vj := interpolateViewpointJSON cv nv progress
      if mapFit = "scale" then pure (some (GoToTarget.viewpointFull vj))
      else pure (some (GoToTarget.geometryWithRotation vj.targetGeometry
        vj.rotation))
    | _, _ => pure none

/-- The per-key dispatch of `scrollAnimation` (animateOnScroll.js:21-32)
restricted to the `viewpoint` key: the handler runs only when the current
slide carries the key, and a thrown error is caught and logged, yielding
no actions.  The result lists the goTo calls issued this tick. -/
def scrollAnimationViewpointActions (slideCurrent slideNext : Slide)
    (progress : ℚ) (is3DView : Bool) (mapFit : String) : List GoToTarget :=
  if slideCurrent.viewpoint.isSome then
    match interpolateViewpoint (some slideCurrent) (some slideNext)
        progress is3DView mapFit with
    | Except.error _ => []
    | Except.ok none => []
    | Except.ok (some t) => [t]
  else []

/-! ## Time-slider interpolation (`map/animateOnScroll.js`,
`interpolateTimeSlider`) -/

/-- A slide's `timeSlider` keyframe data; start and end instants are
modelled by their parsed epoch-millisecond values. -/
structure TimeSliderData where
  timeSliderStart : ℚ
  timeSliderEnd : ℚ
  timeSliderStep : ℚ
  timeSliderUnit : String
deriving DecidableEq

/-- The ArcGIS time-slider state the handler mutates: the visible extent
(start/end instants, `none` modelling `null`) and whether playback is
running (`stop()` clears it). -/
structure TimeSliderState where
  timeExtentStart : Option ℚ
  timeExtentEnd : Option ℚ
  playing : Bool
deriving DecidableEq

/-- The unit table of animateOnScroll.js:128-137, with `|| 0` for an
unknown unit. -/
def unitToMs (unit : String) : ℚ :=
  if unit = "milliseconds" then 1
  else if unit = "seconds" then 1000
  else if unit = "minutes" then 60 * 1000
  else if unit = "hours" then 60 * 60 * 1000
  else if unit = "days" then 24 * 60 * 60 * 1000
  else if unit = "weeks" then 7 * 24 * 60 * 60 * 1000
  else if unit = "months" then 30 * 24 * 60 * 60 * 1000
  else if unit = "years" then 365 * 24 * 60 * 60 * 1000
  else 0

/-- `step * (unitToMs[unit] || 0)` (animateOnScroll.js:139). -/
def stepMsOf (d : TimeSliderData) : ℚ :=
  d.timeSliderStep * unitToMs d.timeSliderUnit

/-- `interpolateTimeSlider` (animateOnScroll.js:118-160) as a transformer
of the time-slider state.  The second component is the `Date` value the
`stepMs <= 0` early return produces (discarded by the dispatcher); on the
main path the state is overwritten with the snapped-and-clamped extent
and playback is stopped. -/
def interpolateTimeSlider (d : TimeSliderData) (progress : ℚ)
    (s : TimeSliderState) : TimeSliderState × Option ℚ :=
  let start := d.timeSliderStart
  let endTime := d.timeSliderEnd
  let interpolatedTime := start + (endTime - start) * progress
  let stepMs := stepMsOf d
  if stepMs ≤ 0 then (s, some (min interpolatedTime endTime))
  else
    let offset := interpolatedTime - start
    let snappedOffset := (⌈offset / stepMs⌉ : ℤ) * stepMs
    let snappedTime := start + snappedOffset
    let clampedTime := min (max snappedTime start) endTime
    ({ timeExtentStart := none,
       timeExtentEnd := some clampedTime,
       playing := false }, none)

/-! ## Helper lemmas -/

theorem splitHash_ne_nil (cs : List Char) : splitHash cs ≠ [] := by
  cases cs with
  | nil => simp [splitHash]
  | cons c rest =>
    simp only [splitHash]
    split
    · simp
    · split <;> simp

theorem one_lt_splitHash_length_iff (cs : List Char) :
    1 < (splitHash cs).length ↔ '#' ∈ cs := by
  induction cs with
  | nil => simp [splitHash]
  | cons c rest ih =>
    simp only [splitHash]
    by_cases hc : c = '#'
    · subst hc
      have hpos : 0 < (splitHash rest).length :=
        List.length_pos.mpr (splitHash_ne_nil rest)
      rw [if_pos rfl]
      simp only [List.length_cons, List.mem_cons]
      constructor
      · intro _
        exact Or.inl trivial
      · intro _
        omega
    · simp only [if_neg hc]
      cases hr : splitHash rest with
      | nil => exact absurd hr (splitHash_ne_nil rest)
      | cons h t =>
        rw [hr] at ih
        simp only [List.length_cons, List.mem_cons] at ih ⊢
        constructor
        · intro hlt
          exact Or.inr (ih.mp hlt)
        · intro hm
          rcases hm with he | hm
          · exact absurd he.symm hc
          · exact ih.mpr hm

theorem slideIndexFallback_eq_observer (src : String) :
    slideIndexFallback src = slideIndexObserver src := rfl

theorem jsClamp_div_num (a b : ℚ) (hb : b ≠ 0) :
    jsMax (JSNum.num 0) (jsMin (JSNum.num 1) (jsDiv a b)) =
      JSNum.num (max 0 (min 1 (a / b))) := by
  simp [jsDiv, hb, jsMin, jsMax]

theorem getPanelScrollBounds_sub (dock : ℚ) (panels : List Panel)
    (slide : ℕ) :
    (getPanelScrollBounds dock panels slide).2 -
      (getPanelScrollBounds dock panels slide).1 =
      getPanelHeight (panels.getD slide default) := by
  simp only [getPanelScrollBounds]
  ring

theorem degenerate_progress_helper (dock : ℚ) (panels : List Panel)
    (slide : ℕ) (y : ℚ)
    (hdeg : getPanelHeight (panels.getD slide default) = 0) :
    getPanelProgress dock panels slide y =
      (if y < (getPanelScrollBounds dock panels slide).1 then JSNum.num 0
       else if y = (getPanelScrollBounds dock panels slide).1 then JSNum.nan
       else JSNum.num 1) := by
  have hD : (getPanelScrollBounds dock panels slide).2 -
      (getPanelScrollBounds dock panels slide).1 = 0 := by
    rw [getPanelScrollBounds_sub, hdeg]
  simp only [getPanelProgress, hD, jsDiv, if_pos rfl]
  rcases lt_trichotomy y (getPanelScrollBounds dock panels slide).1 with
    h | h | h
  · have hneg : y - (getPanelScrollBounds dock panels slide).1 < 0 :=
      sub_neg.mpr h
    rw [if_neg (not_lt.mpr (le_of_lt hneg)), if_pos hneg, if_pos h]
    simp [jsMin, jsMax]
  · subst h
    rw [sub_self, if_neg (lt_irrefl 0), if_neg (lt_irrefl 0),
      if_neg (lt_irrefl _), if_pos rfl]
    simp [jsMin, jsMax]
  · have hpos : 0 < y - (getPanelScrollBounds dock panels slide).1 :=
      sub_pos.mpr h
    rw [if_pos hpos, if_neg (not_lt.mpr (le_of_lt h)), if_neg (ne_of_gt h)]
    simp [jsMin, jsMax, max_eq_right zero_le_one]

/-! ## Claim theorems -/

/-- C10: `getPanelHeight` returns `offsetHeight - marginTop` for a panel
marked first, `offsetHeight - paddingBottom` for a (non-first) panel
marked last, and `offsetHeight + marginTop + marginBottom` otherwise; with
margin 10 and padding 5, a first panel of height 100 yields 90, a last
panel yields 95 and a middle panel yields 120. -/
theorem getPanelHeight_cases :
    (∀ p : Panel, p.first = true →
      getPanelHeight p = p.offsetHeight - p.marginTop) ∧
    (∀ p : Panel, p.first = false → p.last = true →
      getPanelHeight p = p.offsetHeight - p.paddingBottom) ∧
    (∀ p : Panel, p.first = false → p.last = false →
      getPanelHeight p = p.offsetHeight + p.marginTop + p.marginBottom) ∧
    getPanelHeight ⟨100, 10, 10, 5, true, false⟩ = 90 ∧
    getPanelHeight ⟨100, 10, 10, 5, false, true⟩ = 95 ∧
    getPanelHeight ⟨100, 10, 10, 5, false, false⟩ = 120 := by
  refine ⟨?_, ?_, ?_, by norm_num [getPanelHeight], by norm_num [getPanelHeight],
    by norm_num [getPanelHeight]⟩
  · intro p hf
    simp [getPanelHeight, hf]
  · intro p hf hl
    simp [getPanelHeight, hf, hl]
  · intro p hf hl
    simp [getPanelHeight, hf, hl]
    ring

/-- Witness for C10: the first-panel case at a concrete panel. -/
theorem getPanelHeight_cases_witness :
    (⟨100, 10, 10, 5, true, false⟩ : Panel).first = true ∧
    getPanelHeight ⟨100, 10, 10, 5, true, false⟩ =
      (⟨100, 10, 10, 5, true, false⟩ : Panel).offsetHeight -
        (⟨100, 10, 10, 5, true, false⟩ : Panel).marginTop :=
  ⟨rfl, getPanelHeight_cases.1 ⟨100, 10, 10, 5, true, false⟩ rfl⟩

/-- C4: the mutation-observer slide-index parser and the inline scroll
handler fallback parser agree on every src string, and both agree with
the spec-level rule (last `#`-segment, base-10 parse, default 0 on NaN);
in particular `"...#3"` yields 3, a string with no `#` yields 0 and
`"...#abc"` yields 0. -/
theorem slideIndex_parsers_agree :
    (∀ src : String,
      slideIndexObserver src = slideIndexFallback src ∧
      slideIndexObserver src = specSlideIndex src) ∧
    slideIndexObserver "https://story#3" = 3 ∧
    slideIndexObserver "https-story" = 0 ∧
    slideIndexObserver "https://story#abc" = 0 := by
  refine ⟨?_, by decide, by decide, by decide⟩
  intro src
  refine ⟨(slideIndexFallback_eq_observer src).symm, ?_⟩
  by_cases h : '#' ∈ src.data
  · simp only [slideIndexObserver, specSlideIndex,
      if_pos ((one_lt_splitHash_length_iff src.data).mpr h), if_pos h]
  · simp only [slideIndexObserver, specSlideIndex,
      if_neg (fun hl => h ((one_lt_splitHash_length_iff src.data).mp hl)),
      if_neg h]
    decide

/-- C3 counterexample: the claim says the resolved slide index is always
≥ 0, but the src string `"#-2"` drives both resolution paths to the
negative index `-2`. -/
theorem slideIndex_negative_on_negative_fragment :
    slideIndexObserver "#-2" = -2 ∧ slideIndexFallback "#-2" = -2 ∧
    slideIndexObserver "#-2" < 0 := by decide

/-- C3 (amended): a negative slide index can only arise when the src
string contains `#` and its last `#`-segment itself parses to that
negative integer; for every other src both resolution paths yield an
index ≥ 0, and the two paths always agree. -/
theorem slideIndex_nonneg_unless_negative_fragment :
    ∀ src : String,
      (slideIndexObserver src < 0 ∨ slideIndexFallback src < 0) →
      '#' ∈ src.data ∧
      jsParseInt ((splitHash src.data).getLastD []) =
        some (slideIndexObserver src) ∧
      slideIndexObserver src < 0 ∧
      slideIndexFallback src = slideIndexObserver src := by
  intro src h
  rw [slideIndexFallback_eq_observer src, or_self] at h
  by_cases hmem : '#' ∈ src.data
  · refine ⟨hmem, ?_, h, slideIndexFallback_eq_observer src⟩
    have hlen := (one_lt_splitHash_length_iff src.data).mpr hmem
    simp only [slideIndexObserver, if_pos hlen] at h ⊢
    cases hp : jsParseInt ((splitHash src.data).getLastD []) with
    | none =>
      rw [hp] at h
      exact absurd h (by decide)
    | some n => rfl
  · exfalso
    have hlen := fun hl => hmem ((one_lt_splitHash_length_iff src.data).mp hl)
    simp only [slideIndexObserver, if_neg hlen] at h
    exact absurd h (by decide)

/-- Witness for C3 (amended), at the concrete src `"#-2"`. -/
theorem slideIndex_nonneg_unless_negative_fragment_witness :
    '#' ∈ "#-2".data ∧
    jsParseInt ((splitHash "#-2".data).getLastD []) =
      some (slideIndexObserver "#-2") ∧
    slideIndexObserver "#-2" < 0 ∧
    slideIndexFallback "#-2" = slideIndexObserver "#-2" :=
  slideIndex_nonneg_unless_negative_fragment "#-2" (Or.inl (by decide))

/-- C5: `dockStartScroll` is written (to the current scrollY) exactly by
an observer callback that sees the container docked while the state is
undocked and the scroll direction is `"down"`; every other callback —
up-scroll entry, dock exit, repeated callbacks while already docked —
leaves the anchor unchanged, and hence a whole run of callbacks none of
which happens at direction `"down"` preserves the anchor. -/
theorem dockStartScroll_written_only_on_down_entry :
    (∀ (st : DockState) (cd : Bool) (dir : String) (y : ℚ),
      (dockingObserverStep st cd dir y).dockStartScroll =
        if cd = true ∧ st.isDocked = false ∧ dir = "down" then some y
        else st.dockStartScroll) ∧
    (∀ (st : DockState) (events : List (Bool × String × ℚ)),
      (∀ e ∈ events, e.2.1 ≠ "down") →
      (runDockingObserver st events).dockStartScroll =
        st.dockStartScroll) := by
  have hstep : ∀ (st : DockState) (cd : Bool) (dir : String) (y : ℚ),
      (dockingObserverStep st cd dir y).dockStartScroll =
        if cd = true ∧ st.isDocked = false ∧ dir = "down" then some y
        else st.dockStartScroll := by
    intro st cd dir y
    cases cd <;> cases hd : st.isDocked <;>
      by_cases hdir : dir = "down" <;>
      simp [dockingObserverStep, hd, hdir]
  refine ⟨hstep, ?_⟩
  intro st events
  induction events generalizing st with
  | nil => intro _; rfl
  | cons e rest ih =>
    intro h
    have he : e.2.1 ≠ "down" := h e (List.mem_cons_self e rest)
    have hrest : ∀ x ∈ rest, x.2.1 ≠ "down" :=
      fun x hx => h x (List.mem_cons_of_mem e hx)
    calc (runDockingObserver st (e :: rest)).dockStartScroll
        = (runDockingObserver
            (dockingObserverStep st e.1 e.2.1 e.2.2) rest).dockStartScroll :=
          rfl
      _ = (dockingObserverStep st e.1 e.2.1 e.2.2).dockStartScroll :=
          ih _ hrest
      _ = st.dockStartScroll := by
          rw [hstep]
          simp [he]

/-- Witness for C5: a run of three callbacks (up-scroll dock entry, dock
exit, another up-scroll entry) leaves a pre-existing anchor untouched. -/
theorem dockStartScroll_written_only_on_down_entry_witness :
    (runDockingObserver ⟨false, some 7⟩
      [(true, "up", 5), (false, "up", 6), (true, "up", 8)]).dockStartScroll =
      (⟨false, some 7⟩ : DockState).dockStartScroll :=
  dockStartScroll_written_only_on_down_entry.2 ⟨false, some 7⟩
    [(true, "up", 5), (false, "up", 6), (true, "up", 8)] (by decide)

/-- C1: with a positive `stepMs` and ordered bounds, the time-slider
handler interpolates with raw progress, snaps the offset from start up to
a multiple of `stepMs` that is at least the offset and less than one step
beyond it (the `ceil` snap), clamps the result into `[start, end]`, sets
the extent to `{start: null, end: clamped}` and stops playback. -/
theorem interpolateTimeSlider_snap_clamp :
    ∀ (d : TimeSliderData) (p : ℚ) (s : TimeSliderState),
      0 < stepMsOf d → d.timeSliderStart ≤ d.timeSliderEnd →
      0 ≤ p → p ≤ 1 →
      ∃ snapped : ℚ,
        (∃ k : ℤ, snapped = k * stepMsOf d) ∧
        (d.timeSliderEnd - d.timeSliderStart) * p ≤ snapped ∧
        snapped < (d.timeSliderEnd - d.timeSliderStart) * p + stepMsOf d ∧
        (interpolateTimeSlider d p s).1 =
          { timeExtentStart := none,
            timeExtentEnd := some (min (max (d.timeSliderStart + snapped)
              d.timeSliderStart) d.timeSliderEnd),
            playing := false } ∧
        d.timeSliderStart ≤
          min (max (d.timeSliderStart + snapped) d.timeSliderStart)
            d.timeSliderEnd ∧
        min (max (d.timeSliderStart + snapped) d.timeSliderStart)
          d.timeSliderEnd ≤ d.timeSliderEnd := by
  intro d p s hstep hse hp0 hp1
  have hoff : d.timeSliderStart +
      (d.timeSliderEnd - d.timeSliderStart) * p - d.timeSliderStart =
      (d.timeSliderEnd - d.timeSliderStart) * p := by ring
  have hne : stepMsOf d ≠ 0 := ne_of_gt hstep
  have hcancel : ((d.timeSliderEnd - d.timeSliderStart) * p) / stepMsOf d *
      stepMsOf d = (d.timeSliderEnd - d.timeSliderStart) * p :=
    div_mul_cancel₀ _ hne
  refine ⟨(⌈((d.timeSliderEnd - d.timeSliderStart) * p) / stepMsOf d⌉ : ℤ) *
    stepMsOf d, ⟨_, rfl⟩, ?_, ?_, ?_, ?_, ?_⟩
  · calc (d.timeSliderEnd - d.timeSliderStart) * p
        = ((d.timeSliderEnd - d.timeSliderStart) * p) / stepMsOf d *
          stepMsOf d := hcancel.symm
      _ ≤ (⌈((d.timeSliderEnd - d.timeSliderStart) * p) / stepMsOf d⌉ : ℚ) *
          stepMsOf d :=
        mul_le_mul_of_nonneg_right (Int.le_ceil _) (le_of_lt hstep)
  · calc (⌈((d.timeSliderEnd - d.timeSliderStart) * p) / stepMsOf d⌉ : ℚ) *
        stepMsOf d
        < (((d.timeSliderEnd - d.timeSliderStart) * p) / stepMsOf d + 1) *
          stepMsOf d :=
        mul_lt_mul_of_pos_right (Int.ceil_lt_add_one _) hstep
      _ = ((d.timeSliderEnd - d.timeSliderStart) * p) / stepMsOf d *
          stepMsOf d + stepMsOf d := by ring
      _ = (d.timeSliderEnd - d.timeSliderStart) * p + stepMsOf d := by
          rw [hcancel]
  · simp only [interpolateTimeSlider]
    rw [if_neg (not_le.mpr hstep), hoff]
  · exact le_min (le_max_right _ _) hse
  · exact min_le_right _ _

/-- Shared evaluation: one day-step at the example keyframe is 86400000
milliseconds. -/
theorem stepMs_days_example :
    stepMsOf ⟨1577836800000, 1578614400000, 1, "days"⟩ = 86400000 := by
  simp [stepMsOf, unitToMs]
  norm_num

/-- Witness for C1: the spec's concrete example — start 2020-01-01, end
2020-01-10, step 1 day, progress 0.5 — snaps the 4.5-day offset to day 5
and lands at the instant 2020-01-06 (epoch ms 1578268800000). -/
theorem interpolateTimeSlider_snap_clamp_witness :
    0 < stepMsOf ⟨1577836800000, 1578614400000, 1, "days"⟩ ∧
    (∃ snapped : ℚ,
      (∃ k : ℤ, snapped =
        k * stepMsOf ⟨1577836800000, 1578614400000, 1, "days"⟩) ∧
      ((1578614400000:ℚ) - 1577836800000) * (1/2) ≤ snapped ∧
      snapped < ((1578614400000:ℚ) - 1577836800000) * (1/2) +
        stepMsOf ⟨1577836800000, 1578614400000, 1, "days"⟩ ∧
      (interpolateTimeSlider ⟨1577836800000, 1578614400000, 1, "days"⟩
          (1/2) ⟨some 0, some 0, true⟩).1 =
        { timeExtentStart := none,
          timeExtentEnd := some (min (max ((1577836800000:ℚ) + snapped)
            1577836800000) 1578614400000),
          playing := false } ∧
      (1577836800000:ℚ) ≤ min (max ((1577836800000:ℚ) + snapped)
        1577836800000) 1578614400000 ∧
      min (max ((1577836800000:ℚ) + snapped) 1577836800000) 1578614400000 ≤
        (1578614400000:ℚ)) ∧
    (interpolateTimeSlider ⟨1577836800000, 1578614400000, 1, "days"⟩ (1/2)
      ⟨some 0, some 0, true⟩).1.timeExtentEnd = some 1578268800000 := by
  have h1 : 0 < stepMsOf ⟨1577836800000, 1578614400000, 1, "days"⟩ := by
    rw [stepMs_days_example]
    norm_num
  refine ⟨h1, interpolateTimeSlider_snap_clamp
    ⟨1577836800000, 1578614400000, 1, "days"⟩ (1/2) ⟨some 0, some 0, true⟩
    h1 (by norm_num) (by norm_num) (by norm_num), ?_⟩
  have hceil : (⌈((1577836800000:ℚ) +
      ((1578614400000:ℚ) - 1577836800000) * (1/2) - 1577836800000) /
      86400000⌉ : ℤ) = 5 := by
    rw [Int.ceil_eq_iff]
    constructor <;> norm_num
  simp only [interpolateTimeSlider, stepMs_days_example]
  rw [if_neg (by norm_num), hceil]
  norm_num

/-- C2 (code bug): with `stepMs <= 0` (here an unknown unit, mapped to 0)
`interpolateTimeSlider` returns early: the computed clamped date is only
returned (and discarded by the dispatcher), the slider's extent is left
untouched, and playback is NOT stopped — contradicting the handler's
documented behavior of updating the extent and stopping playback. -/
theorem interpolateTimeSlider_nonpos_step_no_update :
    interpolateTimeSlider ⟨0, 10, 1, "fortnights"⟩ (1/2)
        ⟨some 1, some 2, true⟩ =
      (⟨some 1, some 2, true⟩, some 5) ∧
    (interpolateTimeSlider ⟨0, 10, 1, "fortnights"⟩ (1/2)
        ⟨some 1, some 2, true⟩).1.playing = true := by
  have h : interpolateTimeSlider ⟨0, 10, 1, "fortnights"⟩ (1/2)
      ⟨some 1, some 2, true⟩ = (⟨some 1, some 2, true⟩, some 5) := by
    simp [interpolateTimeSlider, stepMsOf, unitToMs]
    norm_num
  exact ⟨h, by rw [h]⟩

/-- C6: with non-degenerate bounds (end > start), `getPanelProgress`
equals `clamp((scrollY - start) / (end - start), 0, 1)`, is monotonic
non-decreasing in scrollY, is exactly 0 at or below start and exactly 1
at or beyond end. -/
theorem getPanelProgress_clamp_monotone :
    ∀ (dock : ℚ) (panels : List Panel) (slide : ℕ),
      (getPanelScrollBounds dock panels slide).1 <
        (getPanelScrollBounds dock panels slide).2 →
      (∀ y : ℚ, getPanelProgress dock panels slide y =
        JSNum.num (max 0 (min 1
          ((y - (getPanelScrollBounds dock panels slide).1) /
           ((getPanelScrollBounds dock panels slide).2 -
            (getPanelScrollBounds dock panels slide).1))))) ∧
      (∀ y1 y2 : ℚ, y1 ≤ y2 → ∃ q1 q2 : ℚ,
        getPanelProgress dock panels slide y1 = JSNum.num q1 ∧
        getPanelProgress dock panels slide y2 = JSNum.num q2 ∧ q1 ≤ q2) ∧
      (∀ y : ℚ, y ≤ (getPanelScrollBounds dock panels slide).1 →
        getPanelProgress dock panels slide y = JSNum.num 0) ∧
      (∀ y : ℚ, (getPanelScrollBounds dock panels slide).2 ≤ y →
        getPanelProgress dock panels slide y = JSNum.num 1) := by
  intro dock panels slide hlt
  have hpos : (0:ℚ) < (getPanelScrollBounds dock panels slide).2 -
      (getPanelScrollBounds dock panels slide).1 := sub_pos.mpr hlt
  have hne : (getPanelScrollBounds dock panels slide).2 -
      (getPanelScrollBounds dock panels slide).1 ≠ 0 := ne_of_gt hpos
  have hform : ∀ y : ℚ, getPanelProgress dock panels slide y =
      JSNum.num (max 0 (min 1
        ((y - (getPanelScrollBounds dock panels slide).1) /
         ((getPanelScrollBounds dock panels slide).2 -
          (getPanelScrollBounds dock panels slide).1)))) := by
    intro y
    simp only [getPanelProgress]
    exact jsClamp_div_num _ _ hne
  refine ⟨hform, ?_, ?_, ?_⟩
  · intro y1 y2 hy
    refine ⟨_, _, hform y1, hform y2, ?_⟩
    have hdiv := (div_le_div_iff_of_pos_right hpos).mpr
      (sub_le_sub_right hy (getPanelScrollBounds dock panels slide).1)
    exact max_le_max (le_refl 0) (min_le_min (le_refl 1) hdiv)
  · intro y hy
    rw [hform y]
    have hq : (y - (getPanelScrollBounds dock panels slide).1) /
        ((getPanelScrollBounds dock panels slide).2 -
         (getPanelScrollBounds dock panels slide).1) ≤ 0 :=
      div_nonpos_iff.mpr (Or.inr ⟨sub_nonpos.mpr hy, le_of_lt hpos⟩)
    rw [min_eq_right (hq.trans zero_le_one), max_eq_left hq]
  · intro y hy
    rw [hform y]
    have hq : (1:ℚ) ≤ (y - (getPanelScrollBounds dock panels slide).1) /
        ((getPanelScrollBounds dock panels slide).2 -
         (getPanelScrollBounds dock panels slide).1) :=
      (one_le_div hpos).mpr
        (sub_le_sub_right hy (getPanelScrollBounds dock panels slide).1)
    rw [min_eq_left hq, max_eq_right zero_le_one]

/-- Witness for C6: a middle panel of effective height 120 anchored at
dock offset 0, evaluated at scrollY 60. -/
theorem getPanelProgress_clamp_monotone_witness :
    (getPanelScrollBounds 0 [⟨100, 10, 10, 5, false, false⟩] 0).1 <
      (getPanelScrollBounds 0 [⟨100, 10, 10, 5, false, false⟩] 0).2 ∧
    getPanelProgress 0 [⟨100, 10, 10, 5, false, false⟩] 0 60 =
      JSNum.num (max 0 (min 1
        ((60 - (getPanelScrollBounds 0 [⟨100, 10, 10, 5, false, false⟩] 0).1) /
         ((getPanelScrollBounds 0 [⟨100, 10, 10, 5, false, false⟩] 0).2 -
          (getPanelScrollBounds 0 [⟨100, 10, 10, 5, false, false⟩] 0).1)))) := by
  have hlt : (getPanelScrollBounds 0 [⟨100, 10, 10, 5, false, false⟩] 0).1 <
      (getPanelScrollBounds 0 [⟨100, 10, 10, 5, false, false⟩] 0).2 := by
    simp [getPanelScrollBounds, getPanelHeight]
    norm_num
  exact ⟨hlt,
    (getPanelProgress_clamp_monotone 0 [⟨100, 10, 10, 5, false, false⟩] 0
      hlt).1 60⟩

/-- C9 counterexample: for a degenerate panel (effective height 0,
bounds start = end = 100) the published progress is 1 just past the
boundary and NaN exactly at it — the publisher does not replace the
non-finite division result by 0 as the claim states. -/
theorem degenerate_progress_published_not_zero :
    scrollHandlerMessage true (some 100) [⟨50, 50, 0, 0, true, false⟩] 0 101 =
      some (0, JSNum.num 1) ∧
    scrollHandlerMessage true (some 100) [⟨50, 50, 0, 0, true, false⟩] 0 100 =
      some (0, JSNum.nan) := by
  have hdeg : getPanelHeight
      (([⟨50, 50, 0, 0, true, false⟩] : List Panel).getD 0 default) = 0 := by
    simp [getPanelHeight]
  have hb : (getPanelScrollBounds 100 [⟨50, 50, 0, 0, true, false⟩] 0).1 =
      100 := by
    simp [getPanelScrollBounds]
  constructor <;>
  · simp only [scrollHandlerMessage]
    rw [if_neg (by simp), if_pos (by simp)]
    rw [show (some (100:ℚ)).getD 0 = 100 from rfl]
    rw [degenerate_progress_helper _ _ _ _ hdeg, hb]
    norm_num

/-- C9 (amended): for a degenerate panel (end - start = 0) the division
in `getPanelProgress` always yields a non-finite value, and the publisher
applies no non-finite guard: the clamp maps `-Infinity` to 0 and
`+Infinity` to 1 but propagates `NaN`, so the published progress is 0
below the bound, NaN exactly at it, and 1 above it — not uniformly 0. -/
theorem degenerate_progress_published :
    ∀ (dock : ℚ) (panels : List Panel) (slide : ℕ) (y : ℚ),
      slide < panels.length →
      getPanelHeight (panels.getD slide default) = 0 →
      (∀ q : ℚ,
        jsDiv (y - (getPanelScrollBounds dock panels slide).1)
          ((getPanelScrollBounds dock panels slide).2 -
           (getPanelScrollBounds dock panels slide).1) ≠ JSNum.num q) ∧
      scrollHandlerMessage true (some dock) panels slide y =
        some (slide,
          if y < (getPanelScrollBounds dock panels slide).1 then JSNum.num 0
          else if y = (getPanelScrollBounds dock panels slide).1 then
            JSNum.nan
          else JSNum.num 1) := by
  intro dock panels slide y hlen hdeg
  have hD : (getPanelScrollBounds dock panels slide).2 -
      (getPanelScrollBounds dock panels slide).1 = 0 := by
    rw [getPanelScrollBounds_sub, hdeg]
  constructor
  · intro q
    rw [hD]
    simp only [jsDiv, if_pos rfl]
    rcases lt_trichotomy y (getPanelScrollBounds dock panels slide).1 with
      h | h | h
    · have hneg : y - (getPanelScrollBounds dock panels slide).1 < 0 :=
        sub_neg.mpr h
      rw [if_neg (not_lt.mpr (le_of_lt hneg)), if_pos hneg]
      simp
    · subst h
      rw [sub_self, if_neg (lt_irrefl 0), if_neg (lt_irrefl 0)]
      simp
    · have hp2 : 0 < y - (getPanelScrollBounds dock panels slide).1 :=
        sub_pos.mpr h
      rw [if_pos hp2]
      simp
  · simp only [scrollHandlerMessage]
    rw [if_neg (by simp), if_pos hlen]
    rw [show (some dock).getD 0 = dock from rfl]
    rw [degenerate_progress_helper _ _ _ _ hdeg]

/-- Witness for C9 (amended), at the concrete degenerate panel and
scrollY 101 (just past the shared bound 100). -/
theorem degenerate_progress_published_witness :
    (0 < ([⟨50, 50, 0, 0, true, false⟩] : List Panel).length) ∧
    (∀ q : ℚ,
      jsDiv ((101:ℚ) -
          (getPanelScrollBounds 100 [⟨50, 50, 0, 0, true, false⟩] 0).1)
        ((getPanelScrollBounds 100 [⟨50, 50, 0, 0, true, false⟩] 0).2 -
         (getPanelScrollBounds 100 [⟨50, 50, 0, 0, true, false⟩] 0).1) ≠
        JSNum.num q) ∧
    scrollHandlerMessage true (some 100) [⟨50, 50, 0, 0, true, false⟩] 0 101 =
      some (0,
        if (101:ℚ) <
            (getPanelScrollBounds 100 [⟨50, 50, 0, 0, true, false⟩] 0).1 then
          JSNum.num 0
        else if (101:ℚ) =
            (getPanelScrollBounds 100 [⟨50, 50, 0, 0, true, false⟩] 0).1 then
          JSNum.nan
        else JSNum.num 1) := by
  have h := degenerate_progress_published 100 [⟨50, 50, 0, 0, true, false⟩]
    0 101 (by decide) (by simp [getPanelHeight])
  exact ⟨by decide, h.1, h.2⟩

theorem easeInOut_clamp_zero : easeInOut (max 0 (min 1 (0:ℚ))) = 0 := by
  norm_num [easeInOut]

theorem easeInOut_clamp_one : easeInOut (max 0 (min 1 (1:ℚ))) = 1 := by
  norm_num [easeInOut]

theorem easeInOut_zero : easeInOut 0 = 0 := by
  norm_num [easeInOut]

theorem easeInOut_one : easeInOut 1 = 1 := by
  norm_num [easeInOut]

theorem lerpQ_zero (a b : ℚ) : lerpQ a b 0 = a := by
  simp [lerpQ]

theorem lerpQ_one (a b : ℚ) : lerpQ a b 1 = b := by
  simp [lerpQ]

theorem jsOrElse_self (a : Option ℤ) : jsOrElse a a = a := by
  cases a <;> rfl

theorem lerpOpt_matched_zero (a b : Option ℚ)
    (h : a = none ↔ b = none) : lerpOpt a b 0 = a := by
  cases a <;> cases b <;> simp_all [lerpOpt]

theorem lerpOpt_matched_one (a b : Option ℚ)
    (h : a = none ↔ b = none) : lerpOpt a b 1 = b := by
  cases a <;> cases b <;> simp_all [lerpOpt]

/-- C7 counterexample: boundary idempotence is not exact field-for-field.
At progress 1 the interpolated camera keeps the CURRENT slide's spatial
reference (`current || next`), so it differs from the next slide's camera
when the two spatial references disagree; and at progress 0 a rotation
present only on the next side shows through (`a ?? b`), so the
interpolated viewpoint differs from the current slide's. -/
theorem interpolate_boundary_not_exact :
    interpolateCamera ⟨⟨some 4326, 0, 0, 0⟩, 0, 0⟩
        ⟨⟨some 3857, 1, 1, 1⟩, 10, 20⟩ 1 ≠
      ⟨⟨some 3857, 1, 1, 1⟩, 10, 20⟩ ∧
    (interpolateViewpointJSON
        ⟨none, some 1000, ⟨some 4326, 0, 0, 1, 1⟩, none⟩
        ⟨some 5, some 2000, ⟨some 4326, 2, 2, 3, 3⟩, none⟩ 0).rotation ≠
      (⟨none, some 1000, ⟨some 4326, 0, 0, 1, 1⟩, none⟩ :
        Viewpoint).rotation := by
  constructor
  · intro hEq
    have hsr := congrArg (fun c => c.position.spatialReference) hEq
    simp [interpolateCamera, jsOrElse] at hsr
  · intro hEq
    simp [interpolateViewpointJSON, lerpOpt] at hEq

/-- C7 (amended): viewpoint/camera interpolation is boundary-idempotent
on every interpolated field, and exactly field-for-field once the two
sides' spatial references agree and corresponding optional fields are
present on both sides or absent on both: at progress 0 it reproduces the
current slide's camera/viewpoint and at progress 1 the next slide's.
(The spatial reference itself is never interpolated: the result always
carries `current || next`.) -/
theorem interpolate_boundary_idempotence :
    (∀ c1 c2 : Camera,
      c1.position.spatialReference = c2.position.spatialReference →
      interpolateCamera c1 c2 0 = c1 ∧ interpolateCamera c1 c2 1 = c2) ∧
    (∀ v1 v2 : Viewpoint,
      v1.targetGeometry.spatialReference =
        v2.targetGeometry.spatialReference →
      (v1.rotation = none ↔ v2.rotation = none) →
      (v1.scale = none ↔ v2.scale = none) →
      interpolateViewpointJSON v1 v2 0 =
        ⟨v1.rotation, v1.scale, v1.targetGeometry⟩ ∧
      interpolateViewpointJSON v1 v2 1 =
        ⟨v2.rotation, v2.scale, v2.targetGeometry⟩) := by
  constructor
  · intro c1 c2 hsr
    obtain ⟨⟨sr1, x1, y1, z1⟩, h1, t1⟩ := c1
    obtain ⟨⟨sr2, x2, y2, z2⟩, h2, t2⟩ := c2
    simp only at hsr
    subst hsr
    constructor
    · simp [interpolateCamera, easeInOut_clamp_zero, easeInOut_zero, lerpQ_zero, jsOrElse_self]
    · simp [interpolateCamera, easeInOut_clamp_one, easeInOut_one, lerpQ_one, jsOrElse_self]
  · intro v1 v2 hsr hrot hscale
    obtain ⟨r1, s1, ⟨gsr1, a1, b1, c1, d1⟩, cam1⟩ := v1
    obtain ⟨r2, s2, ⟨gsr2, a2, b2, c2, d2⟩, cam2⟩ := v2
    simp only at hsr hrot hscale
    subst hsr
    constructor
    · simp [interpolateViewpointJSON, easeInOut_clamp_zero, easeInOut_zero, lerpQ_zero,
        jsOrElse_self, lerpOpt_matched_zero _ _ hrot,
        lerpOpt_matched_zero _ _ hscale]
    · simp [interpolateViewpointJSON, easeInOut_clamp_one, easeInOut_one, lerpQ_one,
        jsOrElse_self, lerpOpt_matched_one _ _ hrot,
        lerpOpt_matched_one _ _ hscale]

/-- Witness for C7 (amended): two cameras sharing a spatial reference are
reproduced exactly at progress 0 and 1. -/
theorem interpolate_boundary_idempotence_witness :
    (⟨⟨some 4326, 0, 0, 0⟩, 0, 0⟩ : Camera).position.spatialReference =
      (⟨⟨some 4326, 1, 1, 1⟩, 10, 20⟩ : Camera).position.spatialReference ∧
    (interpolateCamera ⟨⟨some 4326, 0, 0, 0⟩, 0, 0⟩
        ⟨⟨some 4326, 1, 1, 1⟩, 10, 20⟩ 0 = ⟨⟨some 4326, 0, 0, 0⟩, 0, 0⟩ ∧
      interpolateCamera ⟨⟨some 4326, 0, 0, 0⟩, 0, 0⟩
        ⟨⟨some 4326, 1, 1, 1⟩, 10, 20⟩ 1 = ⟨⟨some 4326, 1, 1, 1⟩, 10, 20⟩) :=
  ⟨rfl, interpolate_boundary_idempotence.1
    ⟨⟨some 4326, 0, 0, 0⟩, 0, 0⟩ ⟨⟨some 4326, 1, 1, 1⟩, 10, 20⟩ rfl⟩

/-- C8: when exactly one side of the camera/viewpoint pair is missing,
the viewpoint handler issues no goTo call and raises no uncaught error:
a one-sided camera pair in a 3D view returns early (`ok none`), a missing
`next.viewpoint` throws inside the handler and the per-key dispatch
catches it (the tick produces no actions), and a missing
`current.viewpoint` means the key is absent and the handler never runs. -/
theorem scrollAnimation_one_sided_no_goto :
    (∀ (sc sn : Slide) (p : ℚ) (fit : String) (v1 v2 : Viewpoint),
      sc.viewpoint = some v1 → sn.viewpoint = some v2 →
      ((v1.camera = none ∧ v2.camera ≠ none) ∨
       (v1.camera ≠ none ∧ v2.camera = none)) →
      scrollAnimationViewpointActions sc sn p true fit = [] ∧
      interpolateViewpoint (some sc) (some sn) p true fit =
        Except.ok none) ∧
    (∀ (sc sn : Slide) (p : ℚ) (is3D : Bool) (fit : String) (v1 : Viewpoint),
      sc.viewpoint = some v1 → sn.viewpoint = none →
      scrollAnimationViewpointActions sc sn p is3D fit = [] ∧
      interpolateViewpoint (some sc) (some sn) p is3D fit =
        Except.error ()) ∧
    (∀ (sc sn : Slide) (p : ℚ) (is3D : Bool) (fit : String),
      sc.viewpoint = none →
      scrollAnimationViewpointActions sc sn p is3D fit = []) := by
  refine ⟨?_, ?_, ?_⟩
  · intro sc sn p fit v1 v2 hsc hsn hcase
    have hint : interpolateViewpoint (some sc) (some sn) p true fit =
        Except.ok none := by
      rcases hcase with ⟨h1, h2⟩ | ⟨h1, h2⟩
      · obtain ⟨c2, hc2⟩ := Option.ne_none_iff_exists'.mp h2
        simp [interpolateViewpoint, cameraOfSlide, hsc, hsn, h1, hc2,
          Bind.bind, Except.bind, Pure.pure, Except.pure]
      · obtain ⟨c1, hc1⟩ := Option.ne_none_iff_exists'.mp h1
        simp [interpolateViewpoint, cameraOfSlide, hsc, hsn, h2, hc1,
          Bind.bind, Except.bind, Pure.pure, Except.pure]
    exact ⟨by simp [scrollAnimationViewpointActions, hsc, hint], hint⟩
  · intro sc sn p is3D fit v1 hsc hsn
    have hint : interpolateViewpoint (some sc) (some sn) p is3D fit =
        Except.error () := by
      simp [interpolateViewpoint, cameraOfSlide, hsc, hsn, Bind.bind,
        Except.bind]
    exact ⟨by simp [scrollAnimationViewpointActions, hsc, hint], hint⟩
  · intro sc sn p is3D fit hsc
    simp [scrollAnimationViewpointActions, hsc]

/-- Witness for C8: a slide with a viewpoint followed by a slide without
one — the handler throws, the dispatch catches, no goTo is issued. -/
theorem scrollAnimation_one_sided_no_goto_witness :
    (⟨some ⟨none, none, ⟨none, 0, 0, 0, 0⟩, none⟩⟩ : Slide).viewpoint =
      some ⟨none, none, ⟨none, 0, 0, 0, 0⟩, none⟩ ∧
    (⟨none⟩ : Slide).viewpoint = none ∧
    scrollAnimationViewpointActions
      ⟨some ⟨none, none, ⟨none, 0, 0, 0, 0⟩, none⟩⟩ ⟨none⟩ (1/2) true
      "scale" = [] ∧
    interpolateViewpoint
      (some ⟨some ⟨none, none, ⟨none, 0, 0, 0, 0⟩, none⟩⟩) (some ⟨none⟩)
      (1/2) true "scale" = Except.error () :=
  ⟨rfl, rfl,
    (scrollAnimation_one_sided_no_goto.2.1
      ⟨some ⟨none, none, ⟨none, 0, 0, 0, 0⟩, none⟩⟩ ⟨none⟩ (1/2) true
      "scale" ⟨none, none, ⟨none, 0, 0, 0, 0⟩, none⟩ rfl rfl).1,
    (scrollAnimation_one_sided_no_goto.2.1
      ⟨some ⟨none, none, ⟨none, 0, 0, 0, 0⟩, none⟩⟩ ⟨none⟩ (1/2) true
      "scale" ⟨none, none, ⟨none, 0, 0, 0, 0⟩, none⟩ rfl rfl).2⟩

end Scrolly
